import Mathlib

/-!
Shallow embedding of the tag-driven CloudWatch dashboard generator
(`index.js`): resource discovery by tag, grouping into per-cluster buckets,
the two widget-layout builders, and the per-cluster publish loop of the
handler, together with theorems checking the specification's claims.
-/

set_option maxRecDepth 10000

namespace DashGen

/-! ### String helpers (JS `indexOf` / `includes` semantics) -/

/-- Index of the first occurrence of `pat` in `hay` (JS `String.indexOf`
returning `none` instead of `-1`). -/
def indexOfSub : List Char → List Char → Option Nat
  | hay, pat =>
    if pat.isPrefixOf hay then some 0
    else
      match hay with
      | [] => none
      | _ :: t => (indexOfSub t pat).map (fun n => n + 1)

/-- JS `String.includes`. -/
def strIncludes (s pat : String) : Bool :=
  (indexOfSub s.data pat.data).isSome

/-! ### ARN helpers (source: `extractAlbDimension`,
`extractClusterFromServiceArn`, `extractClusterAndService`) -/

/-- The marker searched for in load-balancer ARNs. -/
def albMarker : String := "loadbalancer/"

/-- Source `extractAlbDimension`: substring after the first `loadbalancer/`
marker, or the input unchanged when the marker is absent. -/
def extractAlbDimension (albArn : String) : String :=
  match indexOfSub albArn.data albMarker.data with
  | none => albArn
  | some i => String.mk (albArn.data.drop (i + albMarker.length))

/-- JS `String.split` with a single-character separator, on character
lists: the result always has one more segment than there are separator
occurrences (so `""` splits to `[""]`, and a trailing separator yields a
trailing empty segment). -/
def splitOnCharAux (sep : Char) : List Char → List (List Char)
  | [] => [[]]
  | c :: rest =>
    match splitOnCharAux sep rest with
    | [] => [[]]
    | h :: t => if c = sep then [] :: h :: t else (c :: h) :: t

/-- JS `serviceArn.split("/")`. -/
def splitSlash (s : String) : List String :=
  (splitOnCharAux '/' s.data).map String.mk

/-- Source `extractClusterFromServiceArn`: `parts[1] || "unknown"` after
splitting on `/`. -/
def extractClusterFromServiceArn (serviceArn : String) : String :=
  let parts := splitSlash serviceArn
  let p := parts.getD 1 ""
  if p = "" then "unknown" else p

/-- Source `extractClusterAndService`:
`{ clusterName: parts[1] || "unknown-cluster", serviceName: parts[2] || "unknown-service" }`. -/
def extractClusterAndService (serviceArn : String) : String × String :=
  let parts := splitSlash serviceArn
  let c := parts.getD 1 ""
  let s := parts.getD 2 ""
  (if c = "" then "unknown-cluster" else c,
   if s = "" then "unknown-service" else s)

/-- Classification test used in `groupByCluster`:
`arn.includes(":ecs:") && arn.includes("service/")`. -/
def isEcsServiceArn (arn : String) : Bool :=
  strIncludes arn ":ecs:" && strIncludes arn "service/"

/-- Classification test used in `groupByCluster`:
`arn.includes(":elasticloadbalancing:") && arn.includes("loadbalancer/")`. -/
def isAlbArn (arn : String) : Bool :=
  strIncludes arn ":elasticloadbalancing:" && strIncludes arn "loadbalancer/"

/-! ### Data model -/

/-- One tag of a resource-to-tag mapping (`{ Key, Value }`). -/
structure Tag where
  Key : String
  Value : String
deriving DecidableEq, Repr

/-- One element of `ResourceTagMappingList`.  `ResourceARN` and `Tags` may be
absent in a response, which the source guards with `if (!arn) continue` and
`m.Tags || []`. -/
structure ResourceTagMapping where
  ResourceARN : Option String
  Tags : Option (List Tag)
deriving DecidableEq, Repr

/-- The per-cluster resource bucket built by `groupByCluster`. -/
structure ClusterGroup where
  clusterName : String
  ecsServices : List String
  albs : List String
deriving DecidableEq, Repr

/-! ### Cluster grouping (source: `groupByCluster`) -/

/-- `(tags.find((t) => t.Key === clusterTagKey) || {}).Value || "unknown"`:
the first matching tag's value, where a missing tag or an empty-string value
(both falsy in JS) fall back to `"unknown"`. -/
def resolveClusterName (clusterTagKey : String) (tags : List Tag) : String :=
  match tags.find? (fun t => t.Key == clusterTagKey) with
  | some t => if t.Value = "" then "unknown" else t.Value
  | none => "unknown"

/-- Lookup in the insertion-ordered bucket map (JS object keyed by cluster
name). -/
def findGroup? (cs : List (String × ClusterGroup)) (name : String) :
    Option ClusterGroup :=
  (cs.find? (fun p => p.1 == name)).map Prod.snd

/-- In-place update of the bucket stored under `name`. -/
def updateGroup (cs : List (String × ClusterGroup)) (name : String)
    (f : ClusterGroup → ClusterGroup) : List (String × ClusterGroup) :=
  cs.map (fun p => if p.1 == name then (p.1, f p.2) else p)

/-- The body of the `for (const m of mappings)` loop of `groupByCluster`:
skip mappings without an ARN (JS falsy test, so the empty string is also
skipped), resolve the cluster name, create the bucket on first sight, then
classify the ARN — ECS service first, else load balancer, else ignore. -/
def groupStep (clusterTagKey : String) (cs : List (String × ClusterGroup))
    (m : ResourceTagMapping) : List (String × ClusterGroup) :=
  match m.ResourceARN with
  | none => cs
  | some arn =>
    if arn = "" then cs
    else
      let tags := m.Tags.getD []
      let clusterName := resolveClusterName clusterTagKey tags
      let cs :=
        if (findGroup? cs clusterName).isSome then cs
        else cs ++ [(clusterName, ⟨clusterName, [], []⟩)]
      if isEcsServiceArn arn then
        updateGroup cs clusterName
          (fun g => { g with ecsServices := g.ecsServices ++ [arn] })
      else if isAlbArn arn then
        updateGroup cs clusterName
          (fun g => { g with albs := g.albs ++ [arn] })
      else cs

/-- Source `groupByCluster`, with the JS object modelled as an
insertion-ordered association list. -/
def groupByCluster (mappings : List ResourceTagMapping)
    (clusterTagKey : String) : List (String × ClusterGroup) :=
  mappings.foldl (groupStep clusterTagKey) []

/-! ### Contribution view of grouping (used to reason about the fold) -/

/-- The cluster name and ARN a mapping contributes, when it is not skipped. -/
def mappingCluster? (clusterTagKey : String) (m : ResourceTagMapping) :
    Option (String × String) :=
  match m.ResourceARN with
  | none => none
  | some arn =>
    if arn = "" then none
    else some (resolveClusterName clusterTagKey (m.Tags.getD []), arn)

/-- Does `m` resolve to cluster `c` (and hence create/extend its bucket)? -/
def touchesCluster (clusterTagKey c : String) (m : ResourceTagMapping) : Bool :=
  (mappingCluster? clusterTagKey m).any (fun p => p.1 == c)

/-- The ECS-service ARN `m` appends to cluster `c`, if any. -/
def svcContrib (clusterTagKey c : String) (m : ResourceTagMapping) :
    Option String :=
  (mappingCluster? clusterTagKey m).bind (fun p =>
    if p.1 == c && isEcsServiceArn p.2 then some p.2 else none)

/-- The load-balancer ARN `m` appends to cluster `c`, if any (the `else if`
in the source gives the ECS test precedence). -/
def albContrib (clusterTagKey c : String) (m : ResourceTagMapping) :
    Option String :=
  (mappingCluster? clusterTagKey m).bind (fun p =>
    if p.1 == c && !isEcsServiceArn p.2 && isAlbArn p.2 then some p.2 else none)

/-! ### Widget data model -/

/-- One entry of a CloudWatch metric-array row: a plain string, a per-query
option object `{ stat }`, or a search-expression object
`{ id, label, expression }`. -/
inductive MetricItem where
  | str : String → MetricItem
  | stat : String → MetricItem
  | expr : (id label expression : String) → MetricItem
deriving DecidableEq, Repr

/-- One row of the `metrics` array. -/
abbrev MetricRow := List MetricItem

/-- The `properties` object of a widget.  Widgets that omit `stat` or
`stacked` carry `none`. -/
structure MetricSpec where
  region : String
  view : String
  period : Nat
  stat : Option String
  stacked : Option Bool
  title : String
  metrics : List MetricRow
deriving DecidableEq, Repr

/-- A positioned dashboard widget. -/
structure Widget where
  type : String
  x : Nat
  y : Nat
  width : Nat
  height : Nat
  properties : MetricSpec
deriving DecidableEq, Repr

/-- `process.env.AWS_REGION || "us-east-1"` with the default in force. -/
def REGION : String := "us-east-1"

/-! ### Executive builder (source: `buildExecutiveWidgets`) -/

/-- Metric rows of the executive ALB traffic-and-errors widget: three rows
per load balancer, in load-balancer order. -/
def execAlbTrafficMetrics (albs : List String) : List MetricRow :=
  albs.foldl (fun acc albArn =>
    let lbDim := extractAlbDimension albArn
    acc ++
      [[.str "AWS/ApplicationELB", .str "RequestCount", .str "LoadBalancer", .str lbDim],
       [.str ".", .str "HTTPCode_Target_4XX_Count", .str ".", .str "."],
       [.str ".", .str "HTTPCode_Target_5XX_Count", .str ".", .str "."]]) []

/-- Metric rows of the executive p95-latency widget: one row per load
balancer with a `{ stat: "p95" }` option. -/
def execAlbLatencyMetrics (albs : List String) : List MetricRow :=
  albs.foldl (fun acc albArn =>
    let lbDim := extractAlbDimension albArn
    acc ++
      [[.str "AWS/ApplicationELB", .str "TargetResponseTime", .str "LoadBalancer",
        .str lbDim, .stat "p95"]]) []

/-- Row 1 of the executive dashboard. -/
def execTrafficWidget (resources : ClusterGroup) (y : Nat) : Widget :=
  { type := "metric", x := 0, y := y, width := 12, height := 6,
    properties :=
      { region := REGION, view := "timeSeries", period := 60,
        stat := some "Sum", stacked := some false,
        title := resources.clusterName ++ " – ALB Traffic & Errors",
        metrics := execAlbTrafficMetrics resources.albs } }

/-- Row 2 of the executive dashboard. -/
def execLatencyWidget (resources : ClusterGroup) (y : Nat) : Widget :=
  { type := "metric", x := 0, y := y, width := 12, height := 6,
    properties :=
      { region := REGION, view := "timeSeries", period := 60,
        stat := none, stacked := none,
        title := resources.clusterName ++ " – Latency (p95)",
        metrics := execAlbLatencyMetrics resources.albs } }

/-- Row 3 of the executive dashboard, keyed off the cluster name recovered
from the first service ARN. -/
def execEcsWidget (resources : ClusterGroup) (firstSvc : String) (y : Nat) :
    Widget :=
  let clusterName := extractClusterFromServiceArn firstSvc
  { type := "metric", x := 0, y := y, width := 12, height := 6,
    properties :=
      { region := REGION, view := "timeSeries", period := 60,
        stat := none, stacked := none,
        title := resources.clusterName ++ " – ECS Utilization & Tasks",
        metrics :=
          [[.str "AWS/ECS", .str "CPUUtilization", .str "ClusterName", .str clusterName],
           [.str ".", .str "MemoryUtilization", .str ".", .str "."],
           [.str ".", .str "RunningTaskCount", .str ".", .str "."],
           [.str ".", .str "DesiredTaskCount", .str ".", .str "."]] } }

/-- Source `buildExecutiveWidgets`: two conditional full-width ALB rows with
an advancing `y` cursor, then a conditional ECS aggregate row. -/
def buildExecutiveWidgets (resources : ClusterGroup) : List Widget :=
  let widgets0 : List Widget := []
  let y0 : Nat := 0
  let widgets1 :=
    if resources.albs.length > 0 then widgets0 ++ [execTrafficWidget resources y0]
    else widgets0
  let y1 := if resources.albs.length > 0 then y0 + 6 else y0
  let widgets2 :=
    if resources.albs.length > 0 then widgets1 ++ [execLatencyWidget resources y1]
    else widgets1
  let y2 := if resources.albs.length > 0 then y1 + 6 else y1
  match resources.ecsServices with
  | [] => widgets2
  | firstSvc :: _ => widgets2 ++ [execEcsWidget resources firstSvc y2]

/-! ### Developer builder (source: `buildDeveloperWidgets` and the two
stand-alone widget constructors it invokes) -/

/-- The server-side search expression of `buildEcsClusterTasksWidget`. -/
def searchExpr (metricName clusterName : String) : String :=
  "SEARCH(\x27\x7bAWS/ECS,ClusterName,ServiceName\x7d MetricName=\x22" ++
    metricName ++ "\x22 ClusterName=\x22" ++ clusterName ++
    "\x22\x27, \x27Sum\x27, 60)"

/-- Source `buildEcsClusterTasksWidget`: the aggregate running-vs-desired
tasks widget built from two search-expression queries. -/
def buildEcsClusterTasksWidget (clusterName : String) (x y : Nat) : Widget :=
  { type := "metric", x := x, y := y, width := 12, height := 6,
    properties :=
      { region := REGION, view := "timeSeries", period := 60,
        stat := some "Sum", stacked := none,
        title := clusterName ++ " – ECS Tasks (Running vs Desired)",
        metrics :=
          [[.expr "run" "Running (sum across services)"
              (searchExpr "RunningTaskCount" clusterName)],
           [.expr "des" "Desired (sum across services)"
              (searchExpr "DesiredTaskCount" clusterName)]] } }

/-- Source `buildAlbTlsNegotiationErrorsWidget`: returns a widget only when
at least one load balancer exists; the JS function otherwise falls off the
end and returns `undefined`. -/
def buildAlbTlsNegotiationErrorsWidget (resources : ClusterGroup)
    (x y width height : Nat) : Option Widget :=
  if resources.albs.length > 0 then
    let metrics := resources.albs.foldl (fun acc albArn =>
      let lbDim := extractAlbDimension albArn
      acc ++
        [[.str "AWS/ApplicationELB", .str "ClientTLSNegotiationErrorCount",
          .str "LoadBalancer", .str lbDim]]) []
    some { type := "metric", x := x, y := y, width := width, height := height,
           properties :=
             { region := REGION, view := "timeSeries", period := 60,
               stat := some "Sum", stacked := none,
               title := "ALB Client TLS Negotiation Errors",
               metrics := metrics } }
  else none

/-- Per-service CPU/Memory widget of the developer dashboard. -/
def devCpuMemWidget (svcArn : String) (x y : Nat) : Widget :=
  let cs := extractClusterAndService svcArn
  { type := "metric", x := x, y := y, width := 8, height := 6,
    properties :=
      { region := REGION, view := "timeSeries", period := 60,
        stat := none, stacked := none,
        title := "Service – " ++ cs.2 ++ " CPU & Memory",
        metrics :=
          [[.str "AWS/ECS", .str "CPUUtilization", .str "ClusterName", .str cs.1,
            .str "ServiceName", .str cs.2],
           [.str ".", .str "MemoryUtilization", .str ".", .str ".", .str ".", .str "."]] } }

/-- Per-service running-vs-desired tasks widget of the developer
dashboard. -/
def devTasksWidget (svcArn : String) (x y : Nat) : Widget :=
  let cs := extractClusterAndService svcArn
  { type := "metric", x := x, y := y, width := 8, height := 6,
    properties :=
      { region := REGION, view := "timeSeries", period := 60,
        stat := none, stacked := none,
        title := "Service – " ++ cs.2 ++ " Tasks",
        metrics :=
          [[.str "AWS/ECS", .str "RunningTaskCount", .str "ClusterName", .str cs.1,
            .str "ServiceName", .str cs.2],
           [.str ".", .str "DesiredTaskCount", .str ".", .str ".", .str ".", .str "."]] } }

/-- The mutable layout state of the developer builder's per-service loops:
accumulated widgets plus the `x`/`y`/`col` cursors. -/
structure DevCursor where
  ws : List Widget
  x : Nat
  y : Nat
  col : Nat
deriving DecidableEq, Repr

/-- One per-service loop of the developer builder: emit an 8×6 widget at the
cursor, then advance, wrapping to a new row after every 3rd column. -/
def devSvcFold (mk : String → Nat → Nat → Widget) (svcs : List String)
    (st : DevCursor) : DevCursor :=
  svcs.foldl (fun st svcArn =>
    let w := mk svcArn st.x st.y
    let col := st.col + 1
    if col == 3 then { ws := st.ws ++ [w], x := 0, y := st.y + 6, col := 0 }
    else { ws := st.ws ++ [w], x := st.x + 8, y := st.y, col := col }) st

/-- Metric rows of the developer trailing ALB errors widget. -/
def devAlbErrorMetrics (albs : List String) : List MetricRow :=
  albs.foldl (fun acc albArn =>
    let lbDim := extractAlbDimension albArn
    acc ++
      [[.str "AWS/ApplicationELB", .str "HTTPCode_Target_4XX_Count",
        .str "LoadBalancer", .str lbDim],
       [.str ".", .str "HTTPCode_Target_5XX_Count", .str ".", .str "."]]) []

/-- Metric rows of the developer trailing ALB latency widget. -/
def devAlbLatencyMetrics (albs : List String) : List MetricRow :=
  albs.foldl (fun acc albArn =>
    let lbDim := extractAlbDimension albArn
    acc ++
      [[.str "AWS/ApplicationELB", .str "TargetResponseTime", .str "LoadBalancer",
        .str lbDim, .stat "p95"]]) []

/-- Left widget of the developer trailing ALB pair. -/
def devAlbErrorsWidget (resources : ClusterGroup) (y : Nat) : Widget :=
  { type := "metric", x := 0, y := y, width := 12, height := 6,
    properties :=
      { region := REGION, view := "timeSeries", period := 60,
        stat := none, stacked := none,
        title := resources.clusterName ++ " – ALB Errors",
        metrics := devAlbErrorMetrics resources.albs } }

/-- Right widget of the developer trailing ALB pair. -/
def devAlbLatencyWidget (resources : ClusterGroup) (y : Nat) : Widget :=
  { type := "metric", x := 12, y := y, width := 12, height := 6,
    properties :=
      { region := REGION, view := "timeSeries", period := 60,
        stat := none, stacked := none,
        title := resources.clusterName ++ " – ALB Latency (p95)",
        metrics := devAlbLatencyMetrics resources.albs } }

/-- Source `buildDeveloperWidgets`.  Note the first two statements of the
JS function call `buildAlbTlsNegotiationErrorsWidget` and
`buildEcsClusterTasksWidget` and discard the returned widgets without
pushing them onto `widgets`; the dead bindings mirror those two calls. -/
def buildDeveloperWidgets (resources : ClusterGroup) : List Widget :=
  let _tls := buildAlbTlsNegotiationErrorsWidget resources 0 0 12 6
  let _clusterTasks := buildEcsClusterTasksWidget resources.clusterName 0 6
  let st := devSvcFold devCpuMemWidget resources.ecsServices ⟨[], 0, 0, 0⟩
  let st :=
    if resources.ecsServices.length > 0 then
      devSvcFold devTasksWidget resources.ecsServices ⟨st.ws, 0, st.y + 6, 0⟩
    else st
  if resources.albs.length > 0 then
    st.ws ++ [devAlbErrorsWidget resources (st.y + 6),
              devAlbLatencyWidget resources (st.y + 6)]
  else st.ws

/-! ### Discovery (source: `listTaggedResources`) -/

/-- One tag filter of a `GetResources` request. -/
structure TagFilter where
  Key : String
  Values : List String
deriving DecidableEq, Repr

/-- The request the source sends on each page fetch. -/
structure GetResourcesReq where
  TagFilters : List TagFilter
  ResourcesPerPage : Nat
  PaginationToken : Option String
deriving DecidableEq, Repr

/-- One backend response page. -/
structure GetResourcesResp where
  ResourceTagMappingList : Option (List ResourceTagMapping)
  PaginationToken : Option String
deriving DecidableEq, Repr

/-- The `do … while (PaginationToken)` loop of `listTaggedResources`, run
against a finite script of backend responses consumed in order.  Alongside
the accumulated mappings it returns the trace of requests issued. -/
def listTaggedResourcesAux (tagKey tagValue : String)
    (script : List GetResourcesResp) (tok : Option String)
    (out : List ResourceTagMapping) (reqs : List GetResourcesReq) :
    List ResourceTagMapping × List GetResourcesReq :=
  match script with
  | [] => (out, reqs)
  | resp :: rest =>
    let req : GetResourcesReq := ⟨[⟨tagKey, [tagValue]⟩], 50, tok⟩
    let out := out ++ resp.ResourceTagMappingList.getD []
    let reqs := reqs ++ [req]
    match resp.PaginationToken with
    | none => (out, reqs)
    | some t => listTaggedResourcesAux tagKey tagValue rest (some t) out reqs

/-- Source `listTaggedResources`: first call carries no token, then the loop
follows the returned tokens. -/
def listTaggedResources (script : List GetResourcesResp)
    (tagKey tagValue : String) :
    List ResourceTagMapping × List GetResourcesReq :=
  listTaggedResourcesAux tagKey tagValue script none [] []

/-! ### Orchestrator loop (source: `handler` / `putDashboard`) -/

/-- `process.env.DASHBOARD_EXEC_PREFIX || "Exec-"` with the default in
force (name shortened from the source's). -/
def DASHBOARD_EXEC_PRE : String := "Exec-"

/-- `process.env.DASHBOARD_DEV_PREFIX || "Dev-"` with the default in force
(name shortened from the source's). -/
def DASHBOARD_DEV_PRE : String := "Dev-"

/-- The handler's `for (const clusterName of Object.keys(clusters))` loop.
Each iteration builds both widget sets and awaits two `putDashboard` calls;
a rejected `send` (modelled by `publishFails`) rejects the whole async
handler, so the loop stops there.  Returned are the publish attempts made,
in order, and the name whose publish failed, if any. -/
def runClusterLoop (publishFails : String → Bool) :
    List (String × ClusterGroup) → List String × Option String
  | [] => ([], none)
  | (clusterName, resources) :: rest =>
    let _execWidgets := buildExecutiveWidgets resources
    let _devWidgets := buildDeveloperWidgets resources
    let execName := DASHBOARD_EXEC_PRE ++ clusterName
    if publishFails execName then ([execName], some execName)
    else
      let devName := DASHBOARD_DEV_PRE ++ clusterName
      if publishFails devName then ([execName, devName], some devName)
      else
        let res := runClusterLoop publishFails rest
        (execName :: devName :: res.1, res.2)

/-! ### Lemmas about the bucket map -/

theorem findGroup?_nil (name : String) : findGroup? [] name = none := rfl

theorem findGroup?_cons (p : String × ClusterGroup)
    (t : List (String × ClusterGroup)) (name : String) :
    findGroup? (p :: t) name =
      if p.1 == name then some p.2 else findGroup? t name := by
  by_cases h : p.1 == name <;> simp [findGroup?, List.find?_cons, h]

theorem updateGroup_cons (p : String × ClusterGroup)
    (t : List (String × ClusterGroup)) (name : String)
    (f : ClusterGroup → ClusterGroup) :
    updateGroup (p :: t) name f =
      (if p.1 == name then (p.1, f p.2) else p) :: updateGroup t name f := by
  simp [updateGroup]

theorem findGroup?_updateGroup_self (cs : List (String × ClusterGroup))
    (name : String) (f : ClusterGroup → ClusterGroup) :
    findGroup? (updateGroup cs name f) name = (findGroup? cs name).map f := by
  induction cs with
  | nil => rfl
  | cons p t ih =>
    rw [updateGroup_cons]
    by_cases h : p.1 == name
    · rw [if_pos h, findGroup?_cons, findGroup?_cons, if_pos h, if_pos h]
      rfl
    · rw [if_neg h, findGroup?_cons, findGroup?_cons, if_neg h, if_neg h, ih]

theorem findGroup?_updateGroup_ne (cs : List (String × ClusterGroup))
    (name c : String) (f : ClusterGroup → ClusterGroup) (h : c ≠ name) :
    findGroup? (updateGroup cs name f) c = findGroup? cs c := by
  induction cs with
  | nil => rfl
  | cons p t ih =>
    rw [updateGroup_cons]
    by_cases hp : p.1 == name
    · have hpc : (p.1 == c) = false := by
        have : p.1 = name := by simpa using hp
        simp [this, (Ne.symm h)]
      rw [if_pos hp, findGroup?_cons, findGroup?_cons]
      simp only [hpc, if_false, Bool.false_eq_true]
      exact ih
    · rw [if_neg hp, findGroup?_cons, findGroup?_cons]
      by_cases hpc : p.1 == c
      · simp [hpc]
      · simp only [hpc, if_false, Bool.false_eq_true]
        exact ih

theorem findGroup?_append (cs ds : List (String × ClusterGroup)) (c : String) :
    findGroup? (cs ++ ds) c =
      match findGroup? cs c with
      | some g => some g
      | none => findGroup? ds c := by
  induction cs with
  | nil => simp [findGroup?_nil]
  | cons p t ih =>
    rw [List.cons_append, findGroup?_cons, findGroup?_cons]
    by_cases h : p.1 == c <;> simp [h, ih]

/-- Effect of one `groupByCluster` loop iteration on the bucket of `c`. -/
theorem findGroup?_groupStep (key : String) (cs : List (String × ClusterGroup))
    (m : ResourceTagMapping) (c : String) :
    findGroup? (groupStep key cs m) c =
      match mappingCluster? key m with
      | none => findGroup? cs c
      | some (d, _) =>
        if c = d then
          match findGroup? cs c with
          | some g => some { g with
              ecsServices := g.ecsServices ++ (svcContrib key c m).toList,
              albs := g.albs ++ (albContrib key c m).toList }
          | none =>
            some ⟨c, (svcContrib key c m).toList, (albContrib key c m).toList⟩
        else findGroup? cs c := by
  cases harn : m.ResourceARN with
  | none => simp [groupStep, mappingCluster?, harn]
  | some arn =>
    by_cases h0 : arn = ""
    · simp [groupStep, mappingCluster?, harn, h0]
    · have hm : mappingCluster? key m =
        some (resolveClusterName key (m.Tags.getD []), arn) := by
        simp [mappingCluster?, harn, h0]
      have hsv : svcContrib key c m =
          if resolveClusterName key (m.Tags.getD []) == c && isEcsServiceArn arn
          then some arn else none := by
        simp [svcContrib, hm]
      have hal : albContrib key c m =
          if resolveClusterName key (m.Tags.getD []) == c &&
             !isEcsServiceArn arn && isAlbArn arn
          then some arn else none := by
        simp [albContrib, hm]
      have hstep : groupStep key cs m =
          (if isEcsServiceArn arn then
            updateGroup
              (if (findGroup? cs (resolveClusterName key (m.Tags.getD []))).isSome
               then cs
               else cs ++ [(resolveClusterName key (m.Tags.getD []),
                 (⟨resolveClusterName key (m.Tags.getD []), [], []⟩ : ClusterGroup))])
              (resolveClusterName key (m.Tags.getD []))
              (fun g => { g with ecsServices := g.ecsServices ++ [arn] })
          else if isAlbArn arn then
            updateGroup
              (if (findGroup? cs (resolveClusterName key (m.Tags.getD []))).isSome
               then cs
               else cs ++ [(resolveClusterName key (m.Tags.getD []),
                 (⟨resolveClusterName key (m.Tags.getD []), [], []⟩ : ClusterGroup))])
              (resolveClusterName key (m.Tags.getD []))
              (fun g => { g with albs := g.albs ++ [arn] })
          else
            (if (findGroup? cs (resolveClusterName key (m.Tags.getD []))).isSome
             then cs
             else cs ++ [(resolveClusterName key (m.Tags.getD []),
               (⟨resolveClusterName key (m.Tags.getD []), [], []⟩ : ClusterGroup))])) := by
        simp only [groupStep, harn]
        rw [if_neg h0]
      rw [hstep]
      simp only [hm]
      by_cases hc : c = resolveClusterName key (m.Tags.getD [])
      · rw [if_pos hc]
        rw [← hc] at hsv hal ⊢
        have hdc : (c == c) = true := by simp
        rw [hsv, hal]
        simp only [hdc, Bool.true_and]
        cases hcs : findGroup? cs c with
        | some g =>
          simp only [Option.isSome_some, if_true]
          by_cases hecs : isEcsServiceArn arn = true
          · rw [if_pos hecs, findGroup?_updateGroup_self, hcs]
            simp [hecs]
          · have hecs2 : isEcsServiceArn arn = false := by simpa using hecs
            rw [hecs2]
            simp only [Bool.false_eq_true, if_false]
            by_cases halb : isAlbArn arn = true
            · rw [if_pos halb, findGroup?_updateGroup_self, hcs]
              simp [hecs2, halb]
            · have halb2 : isAlbArn arn = false := by simpa using halb
              rw [halb2]
              simp only [Bool.false_eq_true, if_false]
              rw [hcs]
              simp [hecs2, halb2]
        | none =>
          simp only [Option.isSome_none, Bool.false_eq_true, if_false]
          have hnew : findGroup? (cs ++ [(c, (⟨c, [], []⟩ : ClusterGroup))]) c =
              some ⟨c, [], []⟩ := by
            rw [findGroup?_append, hcs]
            simp [findGroup?_cons]
          by_cases hecs : isEcsServiceArn arn = true
          · rw [if_pos hecs, findGroup?_updateGroup_self, hnew]
            simp [hecs]
          · have hecs2 : isEcsServiceArn arn = false := by simpa using hecs
            rw [hecs2]
            simp only [Bool.false_eq_true, if_false]
            by_cases halb : isAlbArn arn = true
            · rw [if_pos halb, findGroup?_updateGroup_self, hnew]
              simp [hecs2, halb]
            · have halb2 : isAlbArn arn = false := by simpa using halb
              rw [halb2]
              simp only [Bool.false_eq_true, if_false]
              rw [hnew]
              simp [hecs2, halb2]
      · rw [if_neg hc]
        have hne : c ≠ resolveClusterName key (m.Tags.getD []) := hc
        have hcreate :
            findGroup? (cs ++ [(resolveClusterName key (m.Tags.getD []),
              (⟨resolveClusterName key (m.Tags.getD []), [], []⟩ : ClusterGroup))]) c =
            findGroup? cs c := by
          rw [findGroup?_append]
          have h1 : findGroup? [(resolveClusterName key (m.Tags.getD []),
              (⟨resolveClusterName key (m.Tags.getD []), [], []⟩ : ClusterGroup))] c =
              none := by
            rw [findGroup?_cons]
            have : (resolveClusterName key (m.Tags.getD []) == c) = false := by
              simp [beq_iff_eq]
              exact fun h => hne h.symm
            simp [this, findGroup?_nil]
          rw [h1]
          cases findGroup? cs c <;> rfl
        split
        · rw [findGroup?_updateGroup_ne _ _ _ _ hne]
          split
          · rfl
          · exact hcreate
        · split
          · rw [findGroup?_updateGroup_ne _ _ _ _ hne]
            split
            · rfl
            · exact hcreate
          · split
            · rfl
            · exact hcreate

/-- Effect of folding `groupStep` over a whole mapping list on the bucket of
`c`: the bucket collects exactly the per-mapping contributions, in input
order. -/
theorem findGroup?_foldl (key c : String) (ms : List ResourceTagMapping) :
    ∀ cs : List (String × ClusterGroup),
    findGroup? (ms.foldl (groupStep key) cs) c =
      match findGroup? cs c with
      | some g => some { g with
          ecsServices := g.ecsServices ++ ms.filterMap (svcContrib key c),
          albs := g.albs ++ ms.filterMap (albContrib key c) }
      | none =>
        if ms.any (touchesCluster key c) then
          some ⟨c, ms.filterMap (svcContrib key c), ms.filterMap (albContrib key c)⟩
        else none := by
  induction ms with
  | nil =>
    intro cs
    cases h : findGroup? cs c <;> simp [h]
  | cons m ms ih =>
    intro cs
    rw [List.foldl_cons, ih, findGroup?_groupStep]
    cases hm : mappingCluster? key m with
    | none =>
      dsimp only
      have hsv : svcContrib key c m = none := by simp [svcContrib, hm]
      have hal : albContrib key c m = none := by simp [albContrib, hm]
      have ht : touchesCluster key c m = false := by simp [touchesCluster, hm]
      cases hcs : findGroup? cs c <;>
        simp [hsv, hal, ht, List.filterMap_cons, List.any_cons]
    | some p =>
      obtain ⟨d, arn⟩ := p
      dsimp only
      by_cases hc : c = d
      · rw [if_pos hc]
        have ht : touchesCluster key c m = true := by
          simp [touchesCluster, hm, hc]
        cases hcs : findGroup? cs c with
        | some g =>
          cases hsv : svcContrib key c m <;> cases hal : albContrib key c m <;>
            simp [hsv, hal, ht, List.filterMap_cons, List.any_cons,
              List.append_assoc]
        | none =>
          cases hsv : svcContrib key c m <;> cases hal : albContrib key c m <;>
            simp [hsv, hal, ht, List.filterMap_cons, List.any_cons]
      · rw [if_neg hc]
        have hdc : (d == c) = false := by
          simp [beq_iff_eq]
          exact fun h => hc h.symm
        have hsv : svcContrib key c m = none := by
          simp only [svcContrib, hm, Option.bind_some]
          simp
          exact fun h => absurd h.symm hc
        have hal : albContrib key c m = none := by
          simp only [albContrib, hm, Option.bind_some]
          simp
          exact fun h _ => absurd h.symm hc
        have ht : touchesCluster key c m = false := by
          simp [touchesCluster, hm, hdc]
        cases hcs : findGroup? cs c <;>
          simp [hsv, hal, ht, List.filterMap_cons, List.any_cons]

/-- The bucket `groupByCluster` stores under `c`, in closed form. -/
theorem findGroup?_groupByCluster (ms : List ResourceTagMapping)
    (key c : String) :
    findGroup? (groupByCluster ms key) c =
      if ms.any (touchesCluster key c) then
        some ⟨c, ms.filterMap (svcContrib key c), ms.filterMap (albContrib key c)⟩
      else none := by
  rw [groupByCluster, findGroup?_foldl]
  rfl

/-- `List.any` only depends on the multiset of elements. -/
theorem any_eq_of_perm {α : Type} {p : α → Bool} {l1 l2 : List α}
    (h : l1.Perm l2) : l1.any p = l2.any p := by
  induction h with
  | nil => rfl
  | cons a _ ih => simp [List.any_cons, ih]
  | swap a b l => simp [List.any_cons, Bool.or_left_comm]
  | trans _ _ ih1 ih2 => exact ih1.trans ih2

/-! ### Concrete fixtures used by witnesses and counterexamples -/

/-- A well-formed ECS service ARN. -/
def svcArn0 : String := "arn:aws:ecs:us-east-1:1:service/prod/api"

/-- A well-formed application load balancer ARN. -/
def albArn0 : String :=
  "arn:aws:elasticloadbalancing:us-east-1:1:loadbalancer/app/web/abc"

/-- The service mapping of the spec's end-to-end scenario B. -/
def mSvc : ResourceTagMapping := ⟨some svcArn0, some [⟨"Cluster", "prod"⟩]⟩

/-- The load-balancer mapping of the spec's end-to-end scenario B. -/
def mAlb : ResourceTagMapping := ⟨some albArn0, some [⟨"Cluster", "prod"⟩]⟩

/-- A mapping whose cluster tag is present but has the empty string value. -/
def mEmptyTag : ResourceTagMapping := ⟨some svcArn0, some [⟨"Cluster", ""⟩]⟩

/-- An identifier carrying both the ECS-service markers and the
load-balancer markers. -/
def bothArn : String :=
  "arn:aws:elasticloadbalancing:ecs:x:loadbalancer/service/foo"

/-- A mapping for `bothArn`. -/
def mBoth : ResourceTagMapping := ⟨some bothArn, some [⟨"Cluster", "prod"⟩]⟩

/-! ### Claim C6 -/

/-- C6: grouping is invariant under permutation of the mapping list — the
same cluster names exist, and each cluster's service and load-balancer
lists agree as multisets. -/
theorem claim_C6_grouping_perm_invariant (key : String)
    (ms ms2 : List ResourceTagMapping) (hp : ms.Perm ms2) (c : String) :
    ((findGroup? (groupByCluster ms key) c).isSome =
      (findGroup? (groupByCluster ms2 key) c).isSome) ∧
    (∀ g g2, findGroup? (groupByCluster ms key) c = some g →
      findGroup? (groupByCluster ms2 key) c = some g2 →
      g.ecsServices.Perm g2.ecsServices ∧ g.albs.Perm g2.albs) := by
  have hany := any_eq_of_perm (p := touchesCluster key c) hp
  rw [findGroup?_groupByCluster, findGroup?_groupByCluster, hany]
  constructor
  · by_cases h : ms2.any (touchesCluster key c) = true <;> simp [h]
  · intro g g2 hg hg2
    by_cases h : ms2.any (touchesCluster key c) = true
    · rw [if_pos h] at hg hg2
      injection hg with hg
      injection hg2 with hg2
      subst hg
      subst hg2
      exact ⟨hp.filterMap _, hp.filterMap _⟩
    · rw [if_neg h] at hg
      cases hg

/-- Witness for C6 at scenario B's two mappings, swapped. -/
theorem claim_C6_witness :
    (([svcArn0] : List String).Perm [svcArn0] ∧
      ([albArn0] : List String).Perm [albArn0]) :=
  (claim_C6_grouping_perm_invariant "Cluster" [mSvc, mAlb] [mAlb, mSvc]
      (List.Perm.swap mAlb mSvc []) "prod").2
    ⟨"prod", [svcArn0], [albArn0]⟩ ⟨"prod", [svcArn0], [albArn0]⟩
    (by decide) (by decide)

/-! ### Claim C5 (corrected) -/

/-- C5 counterexample: for a mapping whose `Cluster` tag is present with the
empty-string value, grouping creates no empty-string bucket; the resource
lands in the `"unknown"` bucket (JS `||` treats `""` as falsy). -/
theorem claim_C5_counterexample :
    findGroup? (groupByCluster [mEmptyTag] "Cluster") "" = none ∧
    findGroup? (groupByCluster [mEmptyTag] "Cluster") "unknown" =
      some ⟨"unknown", [svcArn0], []⟩ := by
  decide

/-- C5 amended: a present-but-empty cluster tag value is treated like an
absent one — the resource is grouped under `"unknown"`, and no bucket other
than `"unknown"` is created by such a mapping. -/
theorem claim_C5_empty_tag_unknown (key arn : String) (tags : List Tag)
    (t : Tag) (harn : arn ≠ "")
    (hfind : tags.find? (fun x => x.Key == key) = some t)
    (hval : t.Value = "") :
    resolveClusterName key tags = "unknown" ∧
    (findGroup? (groupByCluster [⟨some arn, some tags⟩] key) "unknown").isSome
      = true ∧
    (∀ c : String, c ≠ "unknown" →
      findGroup? (groupByCluster [⟨some arn, some tags⟩] key) c = none) := by
  have hres : resolveClusterName key tags = "unknown" := by
    simp [resolveClusterName, hfind, hval]
  have hmc : mappingCluster? key (⟨some arn, some tags⟩ : ResourceTagMapping) =
      some ("unknown", arn) := by
    simp [mappingCluster?, harn, hres]
  refine ⟨hres, ?_, ?_⟩
  · rw [findGroup?_groupByCluster]
    have ht : touchesCluster key "unknown"
        (⟨some arn, some tags⟩ : ResourceTagMapping) = true := by
      simp [touchesCluster, hmc]
    simp [List.any_cons, ht]
  · intro c hcne
    rw [findGroup?_groupByCluster]
    have ht : touchesCluster key c
        (⟨some arn, some tags⟩ : ResourceTagMapping) = false := by
      simp [touchesCluster, hmc]
      exact fun h => hcne h.symm
    simp [List.any_cons, ht]

/-- Witness for C5's amended theorem at a concrete empty-value tag. -/
theorem claim_C5_witness :
    resolveClusterName "Cluster" [⟨"Cluster", ""⟩] = "unknown" ∧
    (findGroup? (groupByCluster [⟨some svcArn0, some [⟨"Cluster", ""⟩]⟩]
      "Cluster") "unknown").isSome = true :=
  ⟨(claim_C5_empty_tag_unknown "Cluster" svcArn0 [⟨"Cluster", ""⟩]
      ⟨"Cluster", ""⟩ (by decide) (by decide) (by decide)).1,
   (claim_C5_empty_tag_unknown "Cluster" svcArn0 [⟨"Cluster", ""⟩]
      ⟨"Cluster", ""⟩ (by decide) (by decide) (by decide)).2.1⟩

/-! ### Claim C9 -/

/-- C9: classification is container-service first — no ARN satisfying the
ECS-service test is ever stored in a load-balancer list, and a mapping
carrying such an ARN that resolves to cluster `c` puts it in `c`'s service
list. -/
theorem claim_C9_ecs_classification_precedence (key c : String)
    (ms : List ResourceTagMapping) (g : ClusterGroup)
    (hg : findGroup? (groupByCluster ms key) c = some g)
    (arn : String) (hecs : isEcsServiceArn arn = true) :
    arn ∉ g.albs ∧
    (∀ m ∈ ms, m.ResourceARN = some arn →
      resolveClusterName key (m.Tags.getD []) = c → arn ∈ g.ecsServices) := by
  rw [findGroup?_groupByCluster] at hg
  by_cases h : ms.any (touchesCluster key c) = true
  · rw [if_pos h] at hg
    injection hg with hg
    subst hg
    constructor
    · intro hmem
      dsimp only at hmem
      rw [List.mem_filterMap] at hmem
      obtain ⟨m, _, hcon⟩ := hmem
      cases hmc : mappingCluster? key m with
      | none => rw [albContrib, hmc] at hcon; cases hcon
      | some p =>
        rw [albContrib, hmc] at hcon
        simp only [Option.some_bind] at hcon
        by_cases hcond :
            (p.1 == c && !isEcsServiceArn p.2 && isAlbArn p.2) = true
        · rw [if_pos hcond] at hcon
          injection hcon with hcon
          subst hcon
          simp [hecs] at hcond
        · rw [if_neg (by simpa using hcond)] at hcon
          cases hcon
    · intro m hm harn hres
      have harnne : arn ≠ "" := by
        intro he
        rw [he] at hecs
        exact absurd hecs (by decide)
      have hmc : mappingCluster? key m = some (c, arn) := by
        simp [mappingCluster?, harn, harnne, hres]
      have hcon : svcContrib key c m = some arn := by
        simp [svcContrib, hmc, hecs]
      dsimp only
      rw [List.mem_filterMap]
      exact ⟨m, hm, hcon⟩
  · rw [if_neg h] at hg
    cases hg

/-- Witness for C9 at an identifier carrying both marker sets. -/
theorem claim_C9_witness :
    bothArn ∉ (⟨"prod", [bothArn], []⟩ : ClusterGroup).albs ∧
    bothArn ∈ (⟨"prod", [bothArn], []⟩ : ClusterGroup).ecsServices :=
  ⟨(claim_C9_ecs_classification_precedence "Cluster" "prod" [mBoth]
      ⟨"prod", [bothArn], []⟩ (by decide) bothArn (by decide)).1,
   (claim_C9_ecs_classification_precedence "Cluster" "prod" [mBoth]
      ⟨"prod", [bothArn], []⟩ (by decide) bothArn (by decide)).2
     mBoth (by decide) (by decide) (by decide)⟩

/-! ### Claim C7: the `loadbalancer/` extraction -/

/-- If `indexOfSub` finds nothing, no split of the haystack around the
pattern exists. -/
theorem indexOfSub_none {pat : List Char} :
    ∀ {hay : List Char}, indexOfSub hay pat = none →
      ∀ a b : List Char, hay ≠ a ++ pat ++ b := by
  intro hay
  induction hay with
  | nil =>
    intro h a b heq
    rw [indexOfSub] at h
    by_cases hp : pat.isPrefixOf ([] : List Char)
    · rw [if_pos hp] at h
      cases h
    · have hpat : pat ≠ [] := by
        intro he
        exact hp (by simp [he, List.isPrefixOf])
      have := heq.symm
      rw [List.append_assoc] at this
      have h1 := List.append_eq_nil.mp this
      have h2 := List.append_eq_nil.mp h1.2
      exact hpat h2.1
  | cons ch t ih =>
    intro h a b heq
    rw [indexOfSub] at h
    by_cases hp : pat.isPrefixOf (ch :: t)
    · rw [if_pos hp] at h
      cases h
    · rw [if_neg hp] at h
      have hrest : indexOfSub t pat = none := by
        cases hrec : indexOfSub t pat with
        | none => rfl
        | some j => rw [hrec] at h; cases h
      cases a with
      | nil =>
        apply hp
        rw [List.isPrefixOf_iff_prefix]
        exact ⟨b, by simpa using heq.symm⟩
      | cons x a2 =>
        have hx : ch = x ∧ t = a2 ++ pat ++ b := by
          have := heq
          simp only [List.cons_append, List.cons.injEq] at this
          exact this
        exact ih hrest a2 b hx.2

/-- If `indexOfSub` returns `i`, the haystack splits at `i` around the
pattern, and `i` is minimal among all such splits. -/
theorem indexOfSub_some {pat : List Char} :
    ∀ {hay : List Char} {i : Nat}, indexOfSub hay pat = some i →
      hay = hay.take i ++ pat ++ hay.drop (i + pat.length) ∧
      ∀ a b : List Char, hay = a ++ pat ++ b → i ≤ a.length := by
  intro hay
  induction hay with
  | nil =>
    intro i h
    rw [indexOfSub] at h
    by_cases hp : pat.isPrefixOf ([] : List Char)
    · rw [if_pos hp] at h
      injection h with h
      subst h
      have hpat : pat = [] := by
        rw [List.isPrefixOf_iff_prefix] at hp
        obtain ⟨tl, htl⟩ := hp
        exact (List.append_eq_nil.mp htl).1
      subst hpat
      exact ⟨rfl, fun a b _ => Nat.zero_le _⟩
    · rw [if_neg hp] at h
      cases h
  | cons ch t ih =>
    intro i h
    rw [indexOfSub] at h
    by_cases hp : pat.isPrefixOf (ch :: t)
    · rw [if_pos hp] at h
      injection h with h
      subst h
      rw [List.isPrefixOf_iff_prefix] at hp
      obtain ⟨tl, htl⟩ := hp
      constructor
      · rw [List.take_zero, List.nil_append, Nat.zero_add, ← htl,
          List.drop_left]
      · exact fun a b _ => Nat.zero_le _
    · rw [if_neg hp] at h
      cases hrec : indexOfSub t pat with
      | none => rw [hrec] at h; cases h
      | some j =>
        rw [hrec] at h
        injection h with h
        subst h
        obtain ⟨hdec, hmin⟩ := ih hrec
        constructor
        · have hdrop : (ch :: t).drop (j + 1 + pat.length) =
              t.drop (j + pat.length) := by
            have : j + 1 + pat.length = (j + pat.length) + 1 := by omega
            rw [this, List.drop_succ_cons]
          rw [hdrop, List.take_succ_cons, List.cons_append]
          exact congrArg (ch :: ·) hdec
        · intro a b heq
          cases a with
          | nil =>
            exfalso
            apply hp
            rw [List.isPrefixOf_iff_prefix]
            exact ⟨b, by simpa using heq.symm⟩
          | cons x a2 =>
            have hx : t = a2 ++ pat ++ b := by
              have := heq
              simp only [List.cons_append, List.cons.injEq] at this
              exact this.2
            have := hmin a2 b hx
            simp only [List.length_cons]
            omega

/-- A split of the haystack forces `indexOfSub` to succeed. -/
theorem indexOfSub_isSome_of_split {hay pat a b : List Char}
    (heq : hay = a ++ pat ++ b) : (indexOfSub hay pat).isSome = true := by
  cases h : indexOfSub hay pat with
  | none => exact absurd heq (indexOfSub_none h a b)
  | some i => rfl

/-- C7: for every string containing `loadbalancer/`, `extractAlbDimension`
returns exactly the substring after the first occurrence of the marker
(first = the split with the shortest preceding segment); for every string
not containing it, the input is returned unchanged. -/
theorem claim_C7_extractAlbDimension (s : String) :
    ((∃ a b : String, s = a ++ albMarker ++ b) →
      ∃ a b : String, s = a ++ albMarker ++ b ∧ extractAlbDimension s = b ∧
        ∀ a2 b2 : String, s = a2 ++ albMarker ++ b2 → a.length ≤ a2.length) ∧
    ((∀ a b : String, s ≠ a ++ albMarker ++ b) → extractAlbDimension s = s) := by
  constructor
  · rintro ⟨a, b, heq⟩
    have hdata : s.data = a.data ++ albMarker.data ++ b.data := by
      rw [heq, String.data_append, String.data_append]
    have hsome := indexOfSub_isSome_of_split hdata
    obtain ⟨i, hi⟩ := Option.isSome_iff_exists.mp hsome
    obtain ⟨hdec, hmin⟩ := indexOfSub_some hi
    refine ⟨String.mk (s.data.take i),
      String.mk (s.data.drop (i + albMarker.data.length)), ?_, ?_, ?_⟩
    · apply String.ext
      rw [String.data_append, String.data_append]
      exact hdec
    · unfold extractAlbDimension
      rw [hi]
      rfl
    · intro a2 b2 heq2
      have hdata2 : s.data = a2.data ++ albMarker.data ++ b2.data := by
        rw [heq2, String.data_append, String.data_append]
      have hle := hmin a2.data b2.data hdata2
      show (String.mk (s.data.take i)).length ≤ a2.length
      have e1 : (String.mk (s.data.take i)).length = (s.data.take i).length :=
        rfl
      have e2 : a2.length = a2.data.length := rfl
      rw [e1, e2, List.length_take]
      omega
  · intro hno
    cases h : indexOfSub s.data albMarker.data with
    | none =>
      unfold extractAlbDimension
      rw [h]
    | some i =>
      obtain ⟨hdec, -⟩ := indexOfSub_some h
      exfalso
      apply hno (String.mk (s.data.take i))
        (String.mk (s.data.drop (i + albMarker.data.length)))
      apply String.ext
      rw [String.data_append, String.data_append]
      exact hdec

/-- Witness for C7 at a concrete load-balancer ARN. -/
theorem claim_C7_witness :
    extractAlbDimension albArn0 = "app/web/abc" ∧
    (∃ a b : String, albArn0 = a ++ albMarker ++ b ∧
      extractAlbDimension albArn0 = b ∧
      ∀ a2 b2 : String, albArn0 = a2 ++ albMarker ++ b2 →
        a.length ≤ a2.length) :=
  ⟨by decide,
   (claim_C7_extractAlbDimension albArn0).1
     ⟨"arn:aws:elasticloadbalancing:us-east-1:1:", "app/web/abc", by decide⟩⟩

/-! ### Claim C8: discovery pagination -/

/-- The pagination loop against a terminating response script: the output is
the concatenation of all pages (a page with zero or absent mappings
contributing nothing), and the request trace chains the returned tokens
behind the initial one, always with the single-value tag filter and page
size 50. -/
theorem listTaggedResourcesAux_spec (key val : String) :
    ∀ (script : List GetResourcesResp) (tok : Option String)
      (out : List ResourceTagMapping) (reqs : List GetResourcesReq),
      script ≠ [] →
      (∀ r ∈ script.dropLast, r.PaginationToken.isSome = true) →
      (∀ h : script ≠ [], (script.getLast h).PaginationToken = none) →
      listTaggedResourcesAux key val script tok out reqs =
        (out ++ (script.map (fun r => r.ResourceTagMappingList.getD [])).flatten,
         reqs ++ (tok :: script.dropLast.map (fun r => r.PaginationToken)).map
           (fun t => (⟨[⟨key, [val]⟩], 50, t⟩ : GetResourcesReq))) := by
  intro script
  induction script with
  | nil =>
    intro tok out reqs hne _ _
    exact absurd rfl hne
  | cons resp rest ih =>
    intro tok out reqs _ hmid hlast
    cases rest with
    | nil =>
      have htok : resp.PaginationToken = none := hlast (by simp)
      simp [listTaggedResourcesAux, htok]
    | cons r2 rest2 =>
      have hd : (resp :: r2 :: rest2).dropLast = resp :: (r2 :: rest2).dropLast :=
        rfl
      have hhead : resp.PaginationToken.isSome = true := by
        apply hmid
        rw [hd]
        exact List.mem_cons_self _ _
      obtain ⟨t, ht⟩ := Option.isSome_iff_exists.mp hhead
      have hmid2 : ∀ r ∈ (r2 :: rest2).dropLast, r.PaginationToken.isSome = true := by
        intro r hr
        apply hmid
        rw [hd]
        exact List.mem_cons_of_mem _ hr
      have hlast2 : ∀ h : (r2 :: rest2) ≠ [],
          ((r2 :: rest2).getLast h).PaginationToken = none := by
        intro h
        have := hlast (by simp)
        rwa [List.getLast_cons h] at this
      have hstep : listTaggedResourcesAux key val (resp :: r2 :: rest2) tok out reqs =
          listTaggedResourcesAux key val (r2 :: rest2) (some t)
            (out ++ resp.ResourceTagMappingList.getD [])
            (reqs ++ [⟨[⟨key, [val]⟩], 50, tok⟩]) := by
        simp [listTaggedResourcesAux, ht]
      rw [hstep, ih (some t) _ _ (by simp) hmid2 hlast2]
      rw [hd]
      simp [ht, List.flatten]

/-- C8: for every terminating response script (every page but the last
carries a continuation token, the last carries none), `listTaggedResources`
returns the concatenation of all pages' mappings in arrival order, and its
request trace starts token-free and then repeats each page's returned token,
always filtering on `key` matching any of `[val]` with page size 50. -/
theorem claim_C8_pagination (key val : String) (script : List GetResourcesResp)
    (hne : script ≠ [])
    (hmid : ∀ r ∈ script.dropLast, r.PaginationToken.isSome = true)
    (hlast : ∀ h : script ≠ [], (script.getLast h).PaginationToken = none) :
    listTaggedResources script key val =
      ((script.map (fun r => r.ResourceTagMappingList.getD [])).flatten,
       (none :: script.dropLast.map (fun r => r.PaginationToken)).map
         (fun t => (⟨[⟨key, [val]⟩], 50, t⟩ : GetResourcesReq))) := by
  rw [listTaggedResources,
    listTaggedResourcesAux_spec key val script none [] [] hne hmid hlast]
  simp

/-- First response page of the witness script. -/
def page1 : GetResourcesResp := ⟨some [mSvc], some "t1"⟩

/-- Second response page of the witness script: zero mappings, still a
normal page. -/
def page2 : GetResourcesResp := ⟨some [], some "t2"⟩

/-- Final response page of the witness script: no token. -/
def page3 : GetResourcesResp := ⟨none, none⟩

/-- Witness for C8 at a three-page script whose middle page is empty. -/
theorem claim_C8_witness :
    listTaggedResources [page1, page2, page3] "Team" "NodeJS" =
      ([mSvc],
       [⟨[⟨"Team", ["NodeJS"]⟩], 50, none⟩,
        ⟨[⟨"Team", ["NodeJS"]⟩], 50, some "t1"⟩,
        ⟨[⟨"Team", ["NodeJS"]⟩], 50, some "t2"⟩]) := by
  rw [claim_C8_pagination "Team" "NodeJS" [page1, page2, page3] (by decide)
    (by decide) (fun _ => rfl)]
  decide

/-! ### Claim C3 (corrected): publish failures abort the loop -/

/-- C3 amended: the handler's per-cluster loop stops at the first failed
publish — the attempts made are exactly the two dashboards of every
preceding cluster plus the failing attempt itself, and the error escapes
the loop; no later cluster is processed. -/
theorem claim_C3_publish_failure_aborts (publishFails : String → Bool)
    (pre post : List (String × ClusterGroup)) (entry : String × ClusterGroup)
    (hpre : ∀ p ∈ pre, publishFails (DASHBOARD_EXEC_PRE ++ p.1) = false ∧
      publishFails (DASHBOARD_DEV_PRE ++ p.1) = false)
    (hfail : publishFails (DASHBOARD_EXEC_PRE ++ entry.1) = true) :
    runClusterLoop publishFails (pre ++ entry :: post) =
      ((pre.map (fun p => [DASHBOARD_EXEC_PRE ++ p.1,
          DASHBOARD_DEV_PRE ++ p.1])).flatten ++ [DASHBOARD_EXEC_PRE ++ entry.1],
       some (DASHBOARD_EXEC_PRE ++ entry.1)) := by
  induction pre with
  | nil =>
    obtain ⟨ename, eres⟩ := entry
    simp only [List.nil_append, List.map_nil, List.flatten_nil]
    simp [runClusterLoop, hfail]
  | cons p pre ih =>
    obtain ⟨hpe, hpd⟩ := hpre p (List.mem_cons_self _ _)
    have ih2 := ih (fun q hq => hpre q (List.mem_cons_of_mem _ hq))
    obtain ⟨pname, pres⟩ := p
    simp only [List.cons_append]
    rw [runClusterLoop]
    simp only [hpe, Bool.false_eq_true, if_false, hpd, ih2]
    simp

/-- C3 counterexample: with two clusters `a`, `b` and a publisher failing on
dashboard `Exec-a`, the loop attempts only `Exec-a` and never processes
cluster `b` — the claim that remaining clusters are still processed fails. -/
theorem claim_C3_counterexample :
    runClusterLoop (fun n => n == "Exec-a")
        [("a", ⟨"a", [], []⟩), ("b", ⟨"b", [], []⟩)] =
      (["Exec-a"], some "Exec-a") ∧
    "Exec-b" ∉ (runClusterLoop (fun n => n == "Exec-a")
        [("a", ⟨"a", [], []⟩), ("b", ⟨"b", [], []⟩)]).1 ∧
    "Dev-b" ∉ (runClusterLoop (fun n => n == "Exec-a")
        [("a", ⟨"a", [], []⟩), ("b", ⟨"b", [], []⟩)]).1 := by
  decide

/-- Witness for C3's amended theorem: one healthy cluster before the
failing one, one never-processed cluster after it. -/
theorem claim_C3_witness :
    runClusterLoop (fun n => n == "Exec-b")
        ([("a", ⟨"a", [], []⟩)] ++ ("b", ⟨"b", [], []⟩) :: [("c", ⟨"c", [], []⟩)]) =
      (([("a", (⟨"a", [], []⟩ : ClusterGroup))].map
          (fun p => [DASHBOARD_EXEC_PRE ++ p.1, DASHBOARD_DEV_PRE ++ p.1])).flatten
        ++ [DASHBOARD_EXEC_PRE ++ "b"],
       some (DASHBOARD_EXEC_PRE ++ "b")) :=
  claim_C3_publish_failure_aborts (fun n => n == "Exec-b")
    [("a", ⟨"a", [], []⟩)] [("c", ⟨"c", [], []⟩)] ("b", ⟨"b", [], []⟩)
    (by decide) (by decide)

/-! ### Layout analysis of the developer builder (used by C4, C10) -/

@[simp] theorem execTrafficWidget_x (r : ClusterGroup) (y : Nat) :
    (execTrafficWidget r y).x = 0 := rfl

@[simp] theorem execTrafficWidget_y (r : ClusterGroup) (y : Nat) :
    (execTrafficWidget r y).y = y := rfl

@[simp] theorem execLatencyWidget_x (r : ClusterGroup) (y : Nat) :
    (execLatencyWidget r y).x = 0 := rfl

@[simp] theorem execLatencyWidget_y (r : ClusterGroup) (y : Nat) :
    (execLatencyWidget r y).y = y := rfl

@[simp] theorem execEcsWidget_x (r : ClusterGroup) (s : String) (y : Nat) :
    (execEcsWidget r s y).x = 0 := rfl

@[simp] theorem execEcsWidget_y (r : ClusterGroup) (s : String) (y : Nat) :
    (execEcsWidget r s y).y = y := rfl

@[simp] theorem devCpuMemWidget_x (s : String) (x y : Nat) :
    (devCpuMemWidget s x y).x = x := rfl

@[simp] theorem devCpuMemWidget_y (s : String) (x y : Nat) :
    (devCpuMemWidget s x y).y = y := rfl

@[simp] theorem devTasksWidget_x (s : String) (x y : Nat) :
    (devTasksWidget s x y).x = x := rfl

@[simp] theorem devTasksWidget_y (s : String) (x y : Nat) :
    (devTasksWidget s x y).y = y := rfl

@[simp] theorem devAlbErrorsWidget_x (r : ClusterGroup) (y : Nat) :
    (devAlbErrorsWidget r y).x = 0 := rfl

@[simp] theorem devAlbErrorsWidget_y (r : ClusterGroup) (y : Nat) :
    (devAlbErrorsWidget r y).y = y := rfl

@[simp] theorem devAlbLatencyWidget_x (r : ClusterGroup) (y : Nat) :
    (devAlbLatencyWidget r y).x = 12 := rfl

@[simp] theorem devAlbLatencyWidget_y (r : ClusterGroup) (y : Nat) :
    (devAlbLatencyWidget r y).y = y := rfl

/-- The widgets one per-service block emits, indexed from `i`, in the row
block starting at `y0`: the widget for global index `j` sits at
`(8·(j mod 3), y0 + 6·(j div 3))`. -/
def svcRow (mk : String → Nat → Nat → Widget) :
    List String → Nat → Nat → List Widget
  | [], _, _ => []
  | s :: rest, i, y0 =>
    mk s (8 * (i % 3)) (y0 + 6 * (i / 3)) :: svcRow mk rest (i + 1) y0

/-- The per-service fold computes `svcRow` and leaves the cursor at the
position after the last emitted widget. -/
theorem devSvcFold_eq (mk : String → Nat → Nat → Widget) :
    ∀ (svcs : List String) (ws : List Widget) (i y0 : Nat),
      devSvcFold mk svcs ⟨ws, 8 * (i % 3), y0 + 6 * (i / 3), i % 3⟩ =
        ⟨ws ++ svcRow mk svcs i y0, 8 * ((i + svcs.length) % 3),
         y0 + 6 * ((i + svcs.length) / 3), (i + svcs.length) % 3⟩ := by
  intro svcs
  induction svcs with
  | nil =>
    intro ws i y0
    simp [devSvcFold, svcRow]
  | cons s rest ih =>
    intro ws i y0
    have harith : i + 1 + rest.length = i + (rest.length + 1) := by omega
    by_cases h2 : i % 3 = 2
    · have hstate :
          devSvcFold mk (s :: rest) ⟨ws, 8 * (i % 3), y0 + 6 * (i / 3), i % 3⟩ =
          devSvcFold mk rest
            ⟨ws ++ [mk s (8 * (i % 3)) (y0 + 6 * (i / 3))], 0,
             (y0 + 6 * (i / 3)) + 6, 0⟩ := by
        simp [devSvcFold, List.foldl_cons, h2]
      have heq : (⟨ws ++ [mk s (8 * (i % 3)) (y0 + 6 * (i / 3))], 0,
            (y0 + 6 * (i / 3)) + 6, 0⟩ : DevCursor) =
          ⟨ws ++ [mk s (8 * (i % 3)) (y0 + 6 * (i / 3))], 8 * ((i + 1) % 3),
           y0 + 6 * ((i + 1) / 3), (i + 1) % 3⟩ := by
        simp only [DevCursor.mk.injEq]
        refine ⟨trivial, by omega, by omega, by omega⟩
      rw [hstate, heq, ih]
      simp [svcRow, harith]
    · have hstate :
          devSvcFold mk (s :: rest) ⟨ws, 8 * (i % 3), y0 + 6 * (i / 3), i % 3⟩ =
          devSvcFold mk rest
            ⟨ws ++ [mk s (8 * (i % 3)) (y0 + 6 * (i / 3))], 8 * (i % 3) + 8,
             y0 + 6 * (i / 3), i % 3 + 1⟩ := by
        simp [devSvcFold, List.foldl_cons, h2]
      have heq : (⟨ws ++ [mk s (8 * (i % 3)) (y0 + 6 * (i / 3))],
            8 * (i % 3) + 8, y0 + 6 * (i / 3), i % 3 + 1⟩ : DevCursor) =
          ⟨ws ++ [mk s (8 * (i % 3)) (y0 + 6 * (i / 3))], 8 * ((i + 1) % 3),
           y0 + 6 * ((i + 1) / 3), (i + 1) % 3⟩ := by
        simp only [DevCursor.mk.injEq]
        refine ⟨trivial, by omega, by omega, by omega⟩
      rw [hstate, heq, ih]
      simp [svcRow, harith]

/-- Every widget of a per-service block sits at the grid position of its
index. -/
theorem svcRow_mem (mk : String → Nat → Nat → Widget)
    (hmk : ∀ s x y, (mk s x y).x = x ∧ (mk s x y).y = y) :
    ∀ (svcs : List String) (i y0 : Nat) (w : Widget),
      w ∈ svcRow mk svcs i y0 →
      ∃ j, i ≤ j ∧ j < i + svcs.length ∧
        w.x = 8 * (j % 3) ∧ w.y = y0 + 6 * (j / 3) := by
  intro svcs
  induction svcs with
  | nil =>
    intro i y0 w hw
    cases hw
  | cons s rest ih =>
    intro i y0 w hw
    rw [svcRow, List.mem_cons] at hw
    cases hw with
    | inl hw =>
      subst hw
      exact ⟨i, Nat.le_refl _, by simp, (hmk s _ _).1, (hmk s _ _).2⟩
    | inr hw =>
      obtain ⟨j, hj1, hj2, hx, hy⟩ := ih (i + 1) y0 w hw
      exact ⟨j, by omega, by simp [List.length_cons]; omega, hx, hy⟩

/-- No two widgets of one per-service block share an origin. -/
theorem svcRow_pairwise (mk : String → Nat → Nat → Widget)
    (hmk : ∀ s x y, (mk s x y).x = x ∧ (mk s x y).y = y) :
    ∀ (svcs : List String) (i y0 : Nat),
      List.Pairwise (fun w1 w2 : Widget => w1.x ≠ w2.x ∨ w1.y ≠ w2.y)
        (svcRow mk svcs i y0) := by
  intro svcs
  induction svcs with
  | nil => intro i y0; exact List.Pairwise.nil
  | cons s rest ih =>
    intro i y0
    rw [svcRow]
    refine List.Pairwise.cons ?_ (ih (i + 1) y0)
    intro w hw
    obtain ⟨j, hj1, _, hx, hy⟩ := svcRow_mem mk hmk rest (i + 1) y0 w hw
    rw [(hmk s _ _).1, (hmk s _ _).2, hx, hy]
    by_cases h3 : i % 3 = j % 3
    · right
      intro hcontra
      omega
    · left
      omega

/-- The `y` row of the developer trailing ALB pair, as a function of the
number of services. -/
def devAlbRowY (n : Nat) : Nat := (if n > 0 then 12 * (n / 3) + 6 else 0) + 6

/-- Closed form of the developer builder's output: the per-service
CPU/Memory block rooted at row 0, the per-service tasks block rooted one
row below the CPU/Memory block, then (when load balancers exist) the ALB
pair on the next free row.  The TLS and aggregate-tasks widgets the source
builds and discards never appear. -/
theorem buildDeveloperWidgets_eq (resources : ClusterGroup) :
    buildDeveloperWidgets resources =
      svcRow devCpuMemWidget resources.ecsServices 0 0 ++
      svcRow devTasksWidget resources.ecsServices 0
        (6 * (resources.ecsServices.length / 3) + 6) ++
      (if resources.albs.length > 0 then
        [devAlbErrorsWidget resources (devAlbRowY resources.ecsServices.length),
         devAlbLatencyWidget resources (devAlbRowY resources.ecsServices.length)]
      else []) := by
  have hcpu := devSvcFold_eq devCpuMemWidget resources.ecsServices [] 0 0
  norm_num at hcpu
  cases hsv : resources.ecsServices with
  | nil =>
    rw [buildDeveloperWidgets, hsv]
    simp [devSvcFold, svcRow, devAlbRowY]
  | cons s rest =>
    rw [← hsv]
    have hlen : resources.ecsServices.length > 0 := by rw [hsv]; simp
    have htask := devSvcFold_eq devTasksWidget resources.ecsServices
      (svcRow devCpuMemWidget resources.ecsServices 0 0) 0
      (6 * (resources.ecsServices.length / 3) + 6)
    norm_num at htask
    have hy : 6 * (resources.ecsServices.length / 3) + 6 +
        6 * (resources.ecsServices.length / 3) + 6 =
        devAlbRowY resources.ecsServices.length := by
      rw [devAlbRowY, if_pos hlen]
      omega
    rw [buildDeveloperWidgets, hcpu]
    rw [if_pos hlen]
    dsimp only
    rw [htask]
    dsimp only
    rw [hy]
    by_cases halb : resources.albs.length > 0
    · rw [if_pos halb, if_pos halb, List.append_assoc]
    · rw [if_neg halb, if_neg halb]
      simp

/-! ### Claim C4: no two widgets share an origin -/

/-- C4: for every `ClusterGroup` — any combination of load-balancer and
service lists, including empty ones — no two widgets of the executive
builder's output share an `(x, y)` origin, and no two widgets of the
developer builder's output share an `(x, y)` origin. -/
theorem claim_C4_no_origin_overlap (resources : ClusterGroup) :
    List.Pairwise (fun w1 w2 : Widget => w1.x ≠ w2.x ∨ w1.y ≠ w2.y)
      (buildExecutiveWidgets resources) ∧
    List.Pairwise (fun w1 w2 : Widget => w1.x ≠ w2.x ∨ w1.y ≠ w2.y)
      (buildDeveloperWidgets resources) := by
  constructor
  · cases halb : resources.albs with
    | nil =>
      cases hsv : resources.ecsServices with
      | nil => simp [buildExecutiveWidgets, halb, hsv]
      | cons s rest => simp [buildExecutiveWidgets, halb, hsv]
    | cons a as =>
      cases hsv : resources.ecsServices with
      | nil => simp [buildExecutiveWidgets, halb, hsv, List.pairwise_cons]
      | cons s rest => simp [buildExecutiveWidgets, halb, hsv, List.pairwise_cons]
  · have hmkCpu : ∀ (s : String) (x y : Nat),
        (devCpuMemWidget s x y).x = x ∧ (devCpuMemWidget s x y).y = y :=
      fun s x y => ⟨rfl, rfl⟩
    have hmkTask : ∀ (s : String) (x y : Nat),
        (devTasksWidget s x y).x = x ∧ (devTasksWidget s x y).y = y :=
      fun s x y => ⟨rfl, rfl⟩
    rw [buildDeveloperWidgets_eq, List.pairwise_append]
    refine ⟨?_, ?_, ?_⟩
    · rw [List.pairwise_append]
      refine ⟨svcRow_pairwise _ hmkCpu _ _ _, svcRow_pairwise _ hmkTask _ _ _, ?_⟩
      intro w1 hw1 w2 hw2
      obtain ⟨j1, _, hj1, hx1, hy1⟩ := svcRow_mem _ hmkCpu _ _ _ w1 hw1
      obtain ⟨j2, _, hj2, hx2, hy2⟩ := svcRow_mem _ hmkTask _ _ _ w2 hw2
      right
      rw [hy1, hy2]
      omega
    · by_cases halb : resources.albs.length > 0
      · rw [if_pos halb]
        refine List.Pairwise.cons ?_ (List.pairwise_singleton _ _)
        intro w hw
        rw [List.mem_singleton] at hw
        subst hw
        left
        simp
      · rw [if_neg halb]
        exact List.Pairwise.nil
    · intro w1 hw1 w2 hw2
      by_cases halb : resources.albs.length > 0
      case neg =>
        rw [if_neg halb] at hw2
        cases hw2
      case pos =>
        rw [if_pos halb] at hw2
        have hy2 : w2.y = devAlbRowY resources.ecsServices.length := by
          rcases List.mem_cons.mp hw2 with h | h
          · subst h; simp
          · rw [List.mem_singleton] at h; subst h; simp
        rw [List.mem_append] at hw1
        right
        rcases hw1 with h | h
        · obtain ⟨j, _, hj, _, hy1⟩ := svcRow_mem _ hmkCpu _ _ _ w1 h
          have hn : resources.ecsServices.length > 0 := by omega
          have hAlbY : devAlbRowY resources.ecsServices.length =
              12 * (resources.ecsServices.length / 3) + 12 := by
            rw [devAlbRowY, if_pos hn]
          rw [hy1, hy2, hAlbY]
          omega
        · obtain ⟨j, _, hj, _, hy1⟩ := svcRow_mem _ hmkTask _ _ _ w1 h
          have hn : resources.ecsServices.length > 0 := by omega
          have hAlbY : devAlbRowY resources.ecsServices.length =
              12 * (resources.ecsServices.length / 3) + 12 := by
            rw [devAlbRowY, if_pos hn]
          rw [hy1, hy2, hAlbY]
          omega

/-! ### Claims C1, C2 (code bugs): the discarded TLS and aggregate rows -/

/-- Is a metric-array entry a search-expression object? -/
def isExprItem : MetricItem → Bool
  | .expr _ _ _ => true
  | _ => false

/-- Does a widget query any search expression? -/
def hasSearchExpression (w : Widget) : Bool :=
  w.properties.metrics.any (fun row => row.any isExprItem)

/-- C1, at the failing input (one load balancer, one service): the source
builds the full-width TLS widget at `(0, 0)` with the Sum statistic and one
query per load balancer, and the aggregate search-expression tasks widget at
`(0, 6)` — but discards both, so the developer output contains neither (no
widget carries the TLS title or any search expression), and its first
widget is the per-service CPU/Memory widget occupying `(0, 0)` instead. -/
theorem claim_C1_tls_and_tasks_rows_dropped :
    ((buildAlbTlsNegotiationErrorsWidget ⟨"prod", [svcArn0], [albArn0]⟩
        0 0 12 6).map
      (fun w => (w.x, w.y, w.width, w.height)) = some (0, 0, 12, 6)) ∧
    ((buildAlbTlsNegotiationErrorsWidget ⟨"prod", [svcArn0], [albArn0]⟩
        0 0 12 6).map (fun w => w.properties.stat) = some (some "Sum")) ∧
    ((buildAlbTlsNegotiationErrorsWidget ⟨"prod", [svcArn0], [albArn0]⟩
        0 0 12 6).map (fun w => w.properties.title) =
      some "ALB Client TLS Negotiation Errors") ∧
    ((buildAlbTlsNegotiationErrorsWidget ⟨"prod", [svcArn0], [albArn0]⟩
        0 0 12 6).map (fun w => w.properties.metrics.length) = some 1) ∧
    (buildEcsClusterTasksWidget "prod" 0 6).x = 0 ∧
    (buildEcsClusterTasksWidget "prod" 0 6).y = 6 ∧
    hasSearchExpression (buildEcsClusterTasksWidget "prod" 0 6) = true ∧
    (buildDeveloperWidgets ⟨"prod", [svcArn0], [albArn0]⟩).all
      (fun w => w.properties.title != "ALB Client TLS Negotiation Errors")
      = true ∧
    (buildDeveloperWidgets ⟨"prod", [svcArn0], [albArn0]⟩).all
      (fun w => !hasSearchExpression w) = true ∧
    ((buildDeveloperWidgets ⟨"prod", [svcArn0], [albArn0]⟩).head?.map
      (fun w => (w.properties.title, w.x, w.y)) =
      some ("Service – api CPU & Memory", 0, 0)) := by
  decide

/-- C2, at scenario B's input: grouping yields the single cluster `prod`
with one service and one load balancer, but the developer builder emits
only 4 widgets (per-service CPU/Memory, per-service Tasks, and the trailing
ALB pair) — not the 6 the spec claims, because the TLS and aggregate-tasks
widgets are built and discarded. -/
theorem claim_C2_scenario_b_emits_four_widgets :
    groupByCluster [mSvc, mAlb] "Cluster" =
      [("prod", ⟨"prod", [svcArn0], [albArn0]⟩)] ∧
    (buildDeveloperWidgets ⟨"prod", [svcArn0], [albArn0]⟩).length = 4 ∧
    (buildDeveloperWidgets ⟨"prod", [svcArn0], [albArn0]⟩).map
      (fun w => (w.properties.title, w.x, w.y)) =
      [("Service – api CPU & Memory", 0, 0),
       ("Service – api Tasks", 0, 6),
       ("prod – ALB Errors", 0, 12),
       ("prod – ALB Latency (p95)", 12, 12)] := by
  decide

/-! ### Claim C10 (corrected): the sentinel cluster names -/

/-- C10 counterexample: for the malformed service identifier
`"svcNoSlash"` in a group whose tag-derived name is `"unknown"`, the
executive ECS widget's ARN-derived cluster label and the developer
builder's aggregate-tasks label are both `"unknown"` — the same sentinel,
not different ones — and the developer output contains no aggregate
(search-expression) widget at all. -/
theorem claim_C10_counterexample :
    (splitSlash "svcNoSlash").getD 1 "" = "" ∧
    extractClusterFromServiceArn "svcNoSlash" = "unknown" ∧
    (buildEcsClusterTasksWidget
        (ClusterGroup.mk "unknown" ["svcNoSlash"] []).clusterName 0 6
      ).properties.title = "unknown – ECS Tasks (Running vs Desired)" ∧
    ((buildExecutiveWidgets ⟨"unknown", ["svcNoSlash"], []⟩).map
      (fun w => w.properties.metrics.getD 0 [])) =
      [[MetricItem.str "AWS/ECS", MetricItem.str "CPUUtilization",
        MetricItem.str "ClusterName", MetricItem.str "unknown"]] ∧
    (buildDeveloperWidgets ⟨"unknown", ["svcNoSlash"], []⟩).all
      (fun w => !hasSearchExpression w) = true := by
  decide

/-- C10 amended: for a first service identifier without a 2nd `/`-segment,
the executive builder's ECS-widget extraction falls back to `"unknown"`
(not `"unknown-cluster"`), while the developer builder's per-service
extraction falls back to `"unknown-cluster"`; accordingly the executive
ECS aggregate widget's metric dimension is `"unknown"` and the developer
per-service widgets' dimension is `"unknown-cluster"`.  (The developer
aggregate-tasks widget itself is labelled with the tag-derived cluster
name and is dropped from the output, so the claimed divergence of the two
aggregate widgets' labels does not hold.) -/
theorem claim_C10_sentinel_mismatch (svcArn : String)
    (h : (splitSlash svcArn).getD 1 "" = "")
    (name : String) (rest albs : List String) :
    extractClusterFromServiceArn svcArn = "unknown" ∧
    (extractClusterAndService svcArn).1 = "unknown-cluster" ∧
    (∃ w ∈ buildExecutiveWidgets ⟨name, svcArn :: rest, albs⟩,
      w.properties.metrics.getD 0 [] =
        [MetricItem.str "AWS/ECS", MetricItem.str "CPUUtilization",
         MetricItem.str "ClusterName", MetricItem.str "unknown"]) ∧
    (∃ w ∈ buildDeveloperWidgets ⟨name, svcArn :: rest, albs⟩,
      w.properties.metrics.getD 0 [] =
        [MetricItem.str "AWS/ECS", MetricItem.str "CPUUtilization",
         MetricItem.str "ClusterName", MetricItem.str "unknown-cluster",
         MetricItem.str "ServiceName",
         MetricItem.str (extractClusterAndService svcArn).2]) := by
  have h1 : extractClusterFromServiceArn svcArn = "unknown" := by
    simp only [extractClusterFromServiceArn]
    rw [h]
    simp
  have h2 : (extractClusterAndService svcArn).1 = "unknown-cluster" := by
    simp only [extractClusterAndService]
    rw [h]
    simp
  refine ⟨h1, h2, ?_, ?_⟩
  · by_cases halb : albs.length > 0
    · refine ⟨execEcsWidget ⟨name, svcArn :: rest, albs⟩ svcArn 12, ?_, ?_⟩
      · simp [buildExecutiveWidgets, halb]
      · simp [execEcsWidget, h1]
    · refine ⟨execEcsWidget ⟨name, svcArn :: rest, albs⟩ svcArn 0, ?_, ?_⟩
      · simp [buildExecutiveWidgets, halb]
      · simp [execEcsWidget, h1]
  · refine ⟨devCpuMemWidget svcArn (8 * (0 % 3)) (0 + 6 * (0 / 3)), ?_, ?_⟩
    · rw [buildDeveloperWidgets_eq]
      apply List.mem_append_left
      apply List.mem_append_left
      dsimp only
      rw [svcRow]
      exact List.mem_cons_self _ _
    · simp [devCpuMemWidget, h2]

/-- Witness for C10's amended theorem at `"svcNoSlash"`. -/
theorem claim_C10_witness :
    extractClusterFromServiceArn "svcNoSlash" = "unknown" ∧
    (extractClusterAndService "svcNoSlash").1 = "unknown-cluster" ∧
    (∃ w ∈ buildExecutiveWidgets ⟨"prod", "svcNoSlash" :: [], []⟩,
      w.properties.metrics.getD 0 [] =
        [MetricItem.str "AWS/ECS", MetricItem.str "CPUUtilization",
         MetricItem.str "ClusterName", MetricItem.str "unknown"]) ∧
    (∃ w ∈ buildDeveloperWidgets ⟨"prod", "svcNoSlash" :: [], []⟩,
      w.properties.metrics.getD 0 [] =
        [MetricItem.str "AWS/ECS", MetricItem.str "CPUUtilization",
         MetricItem.str "ClusterName", MetricItem.str "unknown-cluster",
         MetricItem.str "ServiceName",
         MetricItem.str (extractClusterAndService "svcNoSlash").2]) :=
  claim_C10_sentinel_mismatch "svcNoSlash" (by decide) "prod" [] []

end DashGen
